import Mathlib

/-!
Shallow embedding of the OmniGen ComfyUI node pack's prompt-processing and
sampling-control code (`OmniGen/processor.py`, `omnigen_wrappers.py`).

Tensors are modelled as lists (batch dimension) and as explicit-dimension
matrices of naturals (`Mat`, entries 0/1 as in the float masks built by the
code).  Tokenizer calls are opaque collaborators: the already-tokenized text
chunks and the list of placeholder indices extracted by the regular
expressions are taken as inputs, exactly the data the Python code derives
from the prompt string before the logic modelled here runs.
-/

/-- An input image, reduced to the data the processing code inspects:
its spatial size (`size(-2)`, `size(-1)` in the code) plus an opaque
identity `data` standing for the pixel tensor contents. -/
structure PImage where
  h : Nat
  w : Nat
  data : Nat := 0
deriving DecidableEq, Repr

instance : Inhabited PImage := ⟨⟨0, 0, 0⟩⟩

/-- `processor.py` line 81: `size = img.size(-2) * img.size(-1) // 16 // 16`,
the number of placeholder tokens spliced in for one image. -/
def imgPatchTokens (im : PImage) : Nat :=
  im.h * im.w / 16 / 16

/-- The two validation failures of `process_multi_modal_prompt`
(`assert` statements at `processor.py` lines 68 and 70; the spec names them
`MalformedPromptError` and `ImageCountMismatchError`). -/
inductive ProcError where
  | malformedPrompt
  | imageCountMismatch
deriving DecidableEq, Repr

/-- The dictionary returned by `process_multi_modal_prompt`
(`processor.py` line 85).  `pixel_values = None` is modelled as `[]`. -/
structure MMInput where
  input_ids : List Nat
  pixel_values : List PImage
  image_sizes : List (Nat × Nat)
deriving DecidableEq, Repr

/-- `processor.py` lines 60-62: for every chunk after the first, drop a
single leading token `1` (duplicated beginning-of-sequence artifact). -/
def dropExtraBos (chunks : List (List Nat)) : List (List Nat) :=
  match chunks with
  | [] => []
  | c :: rest =>
      c :: rest.map (fun ck =>
        match ck with
        | 1 :: t => t
        | other => other)

/-- `processor.py` line 67: `sorted(list(set(image_ids)))`. -/
def sortedUniqueIds (ids : List Nat) : List Nat :=
  List.insertionSort (· ≤ ·) ids.dedup

/-- `processor.py` lines 74-84: concatenate the tokenized chunks and, between
chunk `i` and `i+1`, splice a run of `imgPatchTokens` zero tokens for the
`i`-th (re-ordered) image, recording the run's `[start, start+size)` span.
`off` is the number of tokens already emitted (`len(all_input_ids)` at entry,
0 at the top-level call); spans are global offsets while the returned token
list is local to the suffix.  The `(_ :: _, [], _)` case is unreachable in
the program (Python would raise `IndexError`). -/
def interleaveChunks : List (List Nat) → List PImage → Nat → List Nat × List (Nat × Nat)
  | [], _, _ => ([], [])
  | [c], _, _ => (c, [])
  | c :: _ :: _, [], _ => (c, [])
  | c :: rest, im :: imgs, off =>
      let start := off + c.length
      let size := imgPatchTokens im
      let tail := interleaveChunks rest imgs (start + size)
      (c ++ (List.replicate size 0 ++ tail.1), (start, start + size) :: tail.2)

/-- `OmniGenProcessor.process_multi_modal_prompt` (`processor.py` lines
57-85), the branch taken when input images are present.  `promptChunks` is
`[tokenizer(chunk) for chunk in re.split(pattern, text)]` and `imageIds` is
the list of `N`s of the `<|image_N|>` tags in text order (`re.findall`);
both are taken as inputs because the tokenizer and regex are external
collaborators.  The two `assert`s become `Except.error`; `input_images[x-1]`
is modelled with `getD` (the index is always in range once validation
passed). -/
def process_multi_modal_prompt (promptChunks : List (List Nat)) (imageIds : List Nat)
    (inputImages : List PImage) : Except ProcError MMInput :=
  let chunks := dropExtraBos promptChunks
  let u := sortedUniqueIds imageIds
  if u ≠ List.range' 1 u.length then Except.error ProcError.malformedPrompt
  else if u.length ≠ inputImages.length then Except.error ProcError.imageCountMismatch
  else
    let imgs := imageIds.map (fun x => inputImages.getD (x - 1) default)
    let res := interleaveChunks chunks imgs 0
    Except.ok ⟨res.1, imgs, res.2⟩

/-- Projection: the `input_ids` of a successful tokenization. -/
def mmInputIds : Except ProcError MMInput → List Nat
  | Except.ok o => o.input_ids
  | Except.error _ => []

/-- Projection: the `pixel_values` of a successful tokenization. -/
def mmPixelValues : Except ProcError MMInput → List PImage
  | Except.ok o => o.pixel_values
  | Except.error _ => []

/-- Projection: the `image_sizes` spans of a successful tokenization. -/
def mmImageSizes : Except ProcError MMInput → List (Nat × Nat)
  | Except.ok o => o.image_sizes
  | Except.error _ => []

/-- A 2-D tensor of naturals with explicit dimensions; `entry r c` is only
meaningful for `r < rows`, `c < cols`.  Models the float 0/1 masks built by
`OmniGenCollator`. -/
structure Mat where
  rows : Nat
  cols : Nat
  entry : Nat → Nat → Nat

instance : Inhabited Mat := ⟨⟨0, 0, fun _ _ => 0⟩⟩

/-- `torch.ones(size=(r, c))`. -/
def Mat.ones (r c : Nat) : Mat := ⟨r, c, fun _ _ => 1⟩

/-- `torch.zeros(size=(r, c))`. -/
def Mat.zeros (r c : Nat) : Mat := ⟨r, c, fun _ _ => 0⟩

/-- `torch.tril`: keep entries on or below the diagonal, zero the rest. -/
def Mat.tril (m : Mat) : Mat :=
  ⟨m.rows, m.cols, fun r c => if c ≤ r then m.entry r c else 0⟩

/-- `torch.cat([a, b], dim=-1)`: `a` on the left, `b` on the right. -/
def Mat.hcat (a b : Mat) : Mat :=
  ⟨a.rows, a.cols + b.cols, fun r c =>
    if c < a.cols then a.entry r c else b.entry r (c - a.cols)⟩

/-- `torch.cat([a, b], dim=0)`: `a` on top, `b` below. -/
def Mat.vcat (a b : Mat) : Mat :=
  ⟨a.rows + b.rows, a.cols, fun r c =>
    if r < a.rows then a.entry r c else b.entry (r - a.rows) c⟩

/-- `m[:, -k:] = 0`: zero the last `k` columns in every row. -/
def Mat.zeroLastCols (m : Mat) (k : Nat) : Mat :=
  ⟨m.rows, m.cols, fun r c => if m.cols - k ≤ c then 0 else m.entry r c⟩

/-- `m[s:e, s:e] = 1`: set the square block to one. -/
def Mat.setBlockOne (m : Mat) (s e : Nat) : Mat :=
  ⟨m.rows, m.cols, fun r c =>
    if s ≤ r ∧ r < e ∧ s ≤ c ∧ c < e then 1 else m.entry r c⟩

/-- One unit's `temp_mask` from `OmniGenCollator.create_mask`
(`processor.py` lines 180-201): `textLen` is `attention_mask.size(-1)`,
`imgLen` is `max(num_tokens_for_output_images)`, `tempL` is the row's
`torch.sum(mask)` (real token count), `trueImg` is this unit's own
`num_tokens_for_output_images[inx]`. -/
def create_mask_row (textLen imgLen tempL trueImg : Nat) : Mat :=
  let padL := textLen - tempL
  let m1 := Mat.hcat (Mat.tril (Mat.ones (tempL + 1) (tempL + 1)))
      (Mat.zeros (tempL + 1) imgLen)
  let m2 := Mat.vcat m1 (Mat.ones imgLen (tempL + imgLen + 1))
  let m3 :=
    if 0 < padL then
      Mat.vcat (Mat.ones padL (textLen + imgLen + 1))
        (Mat.hcat (Mat.zeros (tempL + 1 + imgLen) padL) m2)
    else m2
  let padImg := imgLen - trueImg
  if 0 < padImg then m3.zeroLastCols padImg else m3

/-- `OmniGenCollator.create_mask` (`processor.py` lines 172-209), the stacked
per-unit masks (first component of the Python return value). -/
def create_mask (attentionMask : List (List Nat)) (numTokensForOutputImages : List Nat) :
    List Mat :=
  let textLength := (attentionMask.headD []).length
  let imgLength := numTokensForOutputImages.foldr max 0
  List.zipWith (fun mask t => create_mask_row textLength imgLength mask.sum t)
    attentionMask numTokensForOutputImages

/-- `OmniGenCollator.create_mask` second return value, reduced to the length
of each unit's filler embedding (`padding_images`): `None` when the unit
needs the whole image block, otherwise the zeroed-out column count. -/
def create_mask_paddings (numTokensForOutputImages : List Nat) : List (Option Nat) :=
  let imgLength := numTokensForOutputImages.foldr max 0
  numTokensForOutputImages.map (fun t =>
    if 0 < imgLength - t then some (imgLength - t) else none)

/-- `OmniGenCollator.create_position` (`processor.py` lines 162-170):
per unit, `[0]*(text_length - temp_l) + list(range(temp_l + img_length + 1))`. -/
def create_position (attentionMask : List (List Nat)) (numTokensForOutputImages : List Nat) :
    List (List Nat) :=
  let textLength := (attentionMask.headD []).length
  let imgLength := numTokensForOutputImages.foldr max 0
  attentionMask.map (fun mask =>
    List.replicate (textLength - mask.sum) 0 ++ List.range (mask.sum + imgLength + 1))

/-- The inner loop of `OmniGenCollator.adjust_attention_for_input_images`
(`processor.py` lines 213-214) for one batch row: set every declared span's
square block to one, left to right. -/
def adjust_attention_row (m : Mat) (spans : List (Nat × Nat)) : Mat :=
  spans.foldl (fun acc se => acc.setBlockOne se.1 se.2) m

/-- `OmniGenCollator.adjust_attention_for_input_images` (`processor.py`
lines 211-216).  The Python `image_sizes` dict keyed by batch index is
modelled as a per-row list of span lists ( `[]` for rows absent from the
dict, for which the loop body never runs). -/
def adjust_attention_for_input_images (masks : List Mat)
    (imageSizes : List (List (Nat × Nat))) : List Mat :=
  List.zipWith adjust_attention_row masks imageSizes

/-- `OmniGenCollator.__call__` branch assembly (`processor.py` lines
272-284): each feature is `(mllm_input, cfg_mllm_input, img_cfg_mllm_input,
target_img_size)`; when `img_cfg_mllm_input[0] is not None` the unit list is
`positive ++ negative ++ image_cfg` and the size list is tripled, else
`positive ++ negative` with the size list doubled.  The `Option.getD` models
that the Python list simply carries the (all non-`None`) dicts through. -/
def collator_branch_order {α γ : Type} [Inhabited α]
    (features : List (α × α × Option α × γ)) : List α × List γ :=
  let mllmInputs := features.map (fun f => f.1)
  let cfgMllmInputs := features.map (fun f => f.2.1)
  let imgCfgMllmInput := features.map (fun f => f.2.2.1)
  let targetImgSize := features.map (fun f => f.2.2.2)
  match imgCfgMllmInput.head? with
  | some (some _) =>
      (mllmInputs ++ cfgMllmInputs ++ imgCfgMllmInput.map (fun o => o.getD default),
       targetImgSize ++ targetImgSize ++ targetImgSize)
  | _ => (mllmInputs ++ cfgMllmInputs, targetImgSize ++ targetImgSize)

/-- `torch.Tensor.chunk(k, dim=0)` on a list: `k` pieces of
`ceil(len / k)` elements, empty trailing pieces dropped. -/
def torch_chunk {α : Type} (xs : List α) (k : Nat) : List (List α) :=
  let n := (xs.length + k - 1) / k
  ((List.range k).map (fun i => (xs.drop (i * n)).take n)).filter
    (fun c => !c.isEmpty)

/-- Tail of `OmniGenPipelineWrapper.__call__` (`omnigen_wrappers.py` lines
169-181): `samples.chunk(1 + num_cfg, dim=0)[0]`, then
`samples.to(torch.float32) / 0.13025`.  Batch rows are modelled as exact
rationals, the float32 cast as the identity. -/
def pipeline_select_positive (samples : List ℚ) (numCfg : Nat) : List ℚ :=
  let positive := (torch_chunk samples (1 + numCfg)).headD []
  positive.map (fun x => x / (13025 / 100000 : ℚ))

/-- `processor.py` lines 110-111: `if input_images is None: use_img_cfg = False`. -/
def effective_use_img_cfg {β : Type} (useImgCfg : Bool) (inputImages : Option β) : Bool :=
  match inputImages with
  | none => false
  | some _ => useImgCfg

/-- `processor.py` lines 136-143, one prompt's `img_cfg_mllm_input`:
`None` unless `use_img_cfg`; the freshly processed image-only prompt when
the prompt has at least one input image; otherwise `neg_mllm_input` itself.
The two opaque `process_multi_modal_prompt` call results are passed in as
`negMllmInput` and `imgCfgMllmInput`. -/
def compute_img_cfg_input {α : Type} (useImgCfg : Bool)
    (curInputImages : Option (List PImage)) (negMllmInput imgCfgMllmInput : α) :
    Option α :=
  if useImgCfg then
    match curInputImages with
    | some imgs => if 1 ≤ imgs.length then some imgCfgMllmInput else some negMllmInput
    | none => some negMllmInput
  else none

/-- Structure of one assembled unit's attention mask, in the amended form of
the spec's step 5.  The unit has `padL` left-pad positions, `tempL` real
text tokens (so `max_len = tempL + padL`), its own output-image token count
`trueImg`, and `padImg` excess image columns (so
`img_length = trueImg + padImg`).  The mask is square of side
`max_len + img_length + 1`; the `(tempL+1)`-sized text+time block is causal
lower-triangular; the output-image block is fully dense up to the unit's own
image token count; left-pad columns are zero in every non-pad row while the
left-pad rows themselves are all ones; and the `padImg` excess trailing
image columns are zero in every row. -/
def MaskUnitStructure (padL tempL padImg trueImg : Nat) : Prop :=
  ((create_mask_row (tempL + padL) (trueImg + padImg) tempL trueImg).rows
      = tempL + padL + (trueImg + padImg) + 1
    ∧ (create_mask_row (tempL + padL) (trueImg + padImg) tempL trueImg).cols
      = tempL + padL + (trueImg + padImg) + 1)
  ∧ (∀ r < tempL + padL + (trueImg + padImg) + 1,
      ∀ c < tempL + padL + (trueImg + padImg) + 1,
      padL ≤ r → r < padL + tempL + 1 → padL ≤ c → c < padL + tempL + 1 →
      (create_mask_row (tempL + padL) (trueImg + padImg) tempL trueImg).entry r c
        = if c ≤ r then 1 else 0)
  ∧ (∀ r < tempL + padL + (trueImg + padImg) + 1,
      ∀ c < tempL + padL + (trueImg + padImg) + 1,
      padL + tempL + 1 ≤ r → padL + tempL + 1 ≤ c → c < padL + tempL + 1 + trueImg →
      (create_mask_row (tempL + padL) (trueImg + padImg) tempL trueImg).entry r c = 1)
  ∧ (∀ r < tempL + padL + (trueImg + padImg) + 1, ∀ c < padL, padL ≤ r →
      (create_mask_row (tempL + padL) (trueImg + padImg) tempL trueImg).entry r c = 0)
  ∧ (∀ r < padL, ∀ c < tempL + padL + 1 + trueImg,
      (create_mask_row (tempL + padL) (trueImg + padImg) tempL trueImg).entry r c = 1)
  ∧ (∀ r < tempL + padL + (trueImg + padImg) + 1,
      ∀ c < tempL + padL + (trueImg + padImg) + 1, tempL + padL + 1 + trueImg ≤ c →
      (create_mask_row (tempL + padL) (trueImg + padImg) tempL trueImg).entry r c = 0)

/-- Pad-row/pad-column structure of one assembled unit's attention mask
(same parametrization as `MaskUnitStructure`): left-pad key columns are zero
in every non-pad row, and every left-pad query row is all ones except for
the excess trailing image columns, which are zero. -/
def MaskPadStructure (padL tempL padImg trueImg : Nat) : Prop :=
  (∀ r < tempL + padL + (trueImg + padImg) + 1, ∀ c < padL, padL ≤ r →
      (create_mask_row (tempL + padL) (trueImg + padImg) tempL trueImg).entry r c = 0)
  ∧ (∀ r < padL, ∀ c < tempL + padL + (trueImg + padImg) + 1,
      (create_mask_row (tempL + padL) (trueImg + padImg) tempL trueImg).entry r c
        = if tempL + padL + 1 + trueImg ≤ c then 0 else 1)

/-- Branch-ordering contract of the combined collator plus the sampler's
chunking: with an image-conditioned branch present the assembled unit list
is `positive ++ negative ++ image_cfg` and splitting it back into 3 equal
groups recovers the three branch lists in that order; with no
image-conditioned branch it is `positive ++ negative`, recovered by
splitting into 2 groups. -/
def CfgBranchOrderProp {α γ : Type} [Inhabited α]
    (features : List (α × α × Option α × γ)) : Prop :=
  ((∃ x, (features.map (fun f => f.2.2.1)).head? = some (some x)) →
    (collator_branch_order features).1
      = features.map (fun f => f.1) ++ features.map (fun f => f.2.1)
          ++ (features.map (fun f => f.2.2.1)).map (fun o => o.getD default)
    ∧ torch_chunk (collator_branch_order features).1 3
      = [features.map (fun f => f.1), features.map (fun f => f.2.1),
         (features.map (fun f => f.2.2.1)).map (fun o => o.getD default)])
  ∧ ((features.map (fun f => f.2.2.1)).head? = some none →
    (collator_branch_order features).1
      = features.map (fun f => f.1) ++ features.map (fun f => f.2.1)
    ∧ torch_chunk (collator_branch_order features).1 2
      = [features.map (fun f => f.1), features.map (fun f => f.2.1)])

/-- Ordering contract of `process_multi_modal_prompt`: tokenization
succeeds, one pixel tensor and one span are recorded per placeholder
occurrence (in text order), and the `i`-th pixel tensor is the supplied
image selected by the `i`-th placeholder index — so the assembled
`pixel_values` follow placeholder-appearance order regardless of the order
images were passed, and a duplicated index contributes one copy per
occurrence. -/
def PixelOrderProp (promptChunks : List (List Nat)) (imageIds : List Nat)
    (inputImages : List PImage) : Prop :=
  (process_multi_modal_prompt promptChunks imageIds inputImages).isOk = true
  ∧ (mmPixelValues (process_multi_modal_prompt promptChunks imageIds inputImages)).length
      = imageIds.length
  ∧ (∀ i < imageIds.length,
      (mmPixelValues (process_multi_modal_prompt promptChunks imageIds inputImages)).getD
          i default
        = inputImages.getD (imageIds.getD i 0 - 1) default)
  ∧ (mmImageSizes (process_multi_modal_prompt promptChunks imageIds inputImages)).length
      = imageIds.length

/-- Validation contract of `process_multi_modal_prompt`: a placeholder-index
multiset whose distinct sorted values are not `{1..K}` fails with
`malformedPrompt`; distinct values `{1..K}` with `K` different from the
number of supplied images fail with `imageCountMismatch`.  In both cases the
result is a bare error value — no token interleaving, padding, mask or
position work contributes to it. -/
def ValidationBehaviour (promptChunks : List (List Nat)) (imageIds : List Nat)
    (inputImages : List PImage) : Prop :=
  (sortedUniqueIds imageIds ≠ List.range' 1 (sortedUniqueIds imageIds).length →
    process_multi_modal_prompt promptChunks imageIds inputImages
      = Except.error ProcError.malformedPrompt)
  ∧ (sortedUniqueIds imageIds = List.range' 1 (sortedUniqueIds imageIds).length →
     (sortedUniqueIds imageIds).length ≠ inputImages.length →
     process_multi_modal_prompt promptChunks imageIds inputImages
      = Except.error ProcError.imageCountMismatch)

/-- Span contract of `process_multi_modal_prompt` (amended form): each
recorded span ends `imgPatchTokens` after it starts, its length equals
`floor(H*W/256)` for the image spliced there, and the `input_ids` slice it
addresses is exactly that run of zero placeholder tokens. -/
def SpanSizesProp (promptChunks : List (List Nat)) (imageIds : List Nat)
    (inputImages : List PImage) : Prop :=
  ∀ i < (mmImageSizes (process_multi_modal_prompt promptChunks imageIds inputImages)).length,
    ((mmImageSizes (process_multi_modal_prompt promptChunks imageIds inputImages)).getD
          i (0, 0)).2
      = ((mmImageSizes (process_multi_modal_prompt promptChunks imageIds inputImages)).getD
          i (0, 0)).1
        + imgPatchTokens
            ((mmPixelValues (process_multi_modal_prompt promptChunks imageIds inputImages)).getD
              i default)
    ∧ ((mmImageSizes (process_multi_modal_prompt promptChunks imageIds inputImages)).getD
          i (0, 0)).2
        - ((mmImageSizes (process_multi_modal_prompt promptChunks imageIds inputImages)).getD
          i (0, 0)).1
      = ((mmPixelValues (process_multi_modal_prompt promptChunks imageIds inputImages)).getD
            i default).h
          * ((mmPixelValues (process_multi_modal_prompt promptChunks imageIds inputImages)).getD
            i default).w / 256
    ∧ ((mmInputIds (process_multi_modal_prompt promptChunks imageIds inputImages)).drop
          (((mmImageSizes (process_multi_modal_prompt promptChunks imageIds inputImages)).getD
            i (0, 0)).1)).take
          (imgPatchTokens
            ((mmPixelValues (process_multi_modal_prompt promptChunks imageIds inputImages)).getD
              i default))
      = List.replicate
          (imgPatchTokens
            ((mmPixelValues (process_multi_modal_prompt promptChunks imageIds inputImages)).getD
              i default))
          0

/-- Position-id contract of `create_position` for batch row `b`: the row
has length `max_len + img_length + 1`, is zero on the `pad_count` prefix,
and counts `0, 1, ..., real_len + img_length` from the pad prefix on. -/
def PositionIdsProp (attMask : List (List Nat)) (numTokens : List Nat) (b : Nat) : Prop :=
  ((create_position attMask numTokens).getD b []).length
      = (attMask.headD []).length + numTokens.foldr max 0 + 1
  ∧ (∀ i < (attMask.headD []).length - (attMask.getD b []).sum,
      ((create_position attMask numTokens).getD b []).getD i 0 = 0)
  ∧ (∀ j < (attMask.getD b []).sum + numTokens.foldr max 0 + 1,
      ((create_position attMask numTokens).getD b []).getD
        ((attMask.headD []).length - (attMask.getD b []).sum + j) 0 = j)

/-- Image-cfg fallback contract of the processor's per-prompt branch logic
(amended form): with `use_img_cfg` requested and a non-null `input_images`
argument, a prompt whose own image list is null or empty gets the negative
branch's input as its image-cfg branch; with a null `input_images` argument
`use_img_cfg` is forced off and the image-cfg branch is absent. -/
def ImgCfgFallbackProp {α β : Type} (negInput imgInput : α) (inputImagesArg : Option β)
    (curImgs : Option (List PImage)) : Prop :=
  (inputImagesArg.isSome = true → (curImgs = none ∨ curImgs = some []) →
    compute_img_cfg_input (effective_use_img_cfg true inputImagesArg) curImgs
        negInput imgInput
      = some negInput)
  ∧ compute_img_cfg_input (effective_use_img_cfg true (none : Option β)) curImgs
        negInput imgInput
      = none

/-! ## Entry and dimension lemmas for the matrix operations -/

theorem Mat.entry_ones (m n r c : Nat) : (Mat.ones m n).entry r c = 1 := rfl

theorem Mat.entry_zeros (m n r c : Nat) : (Mat.zeros m n).entry r c = 0 := rfl

theorem Mat.entry_tril (m : Mat) (r c : Nat) :
    m.tril.entry r c = if c ≤ r then m.entry r c else 0 := rfl

theorem Mat.entry_hcat (a b : Mat) (r c : Nat) :
    (a.hcat b).entry r c = if c < a.cols then a.entry r c else b.entry r (c - a.cols) := rfl

theorem Mat.entry_vcat (a b : Mat) (r c : Nat) :
    (a.vcat b).entry r c = if r < a.rows then a.entry r c else b.entry (r - a.rows) c := rfl

theorem Mat.entry_zeroLastCols (m : Mat) (k r c : Nat) :
    (m.zeroLastCols k).entry r c = if m.cols - k ≤ c then 0 else m.entry r c := rfl

theorem Mat.entry_setBlockOne (m : Mat) (s e r c : Nat) :
    (m.setBlockOne s e).entry r c =
      if s ≤ r ∧ r < e ∧ s ≤ c ∧ c < e then 1 else m.entry r c := rfl

theorem Mat.cols_ones (m n : Nat) : (Mat.ones m n).cols = n := rfl

theorem Mat.cols_zeros (m n : Nat) : (Mat.zeros m n).cols = n := rfl

theorem Mat.rows_ones (m n : Nat) : (Mat.ones m n).rows = m := rfl

theorem Mat.rows_zeros (m n : Nat) : (Mat.zeros m n).rows = m := rfl

theorem Mat.cols_tril (m : Mat) : m.tril.cols = m.cols := rfl

theorem Mat.rows_tril (m : Mat) : m.tril.rows = m.rows := rfl

theorem Mat.cols_hcat (a b : Mat) : (a.hcat b).cols = a.cols + b.cols := rfl

theorem Mat.rows_hcat (a b : Mat) : (a.hcat b).rows = a.rows := rfl

theorem Mat.cols_vcat (a b : Mat) : (a.vcat b).cols = a.cols := rfl

theorem Mat.rows_vcat (a b : Mat) : (a.vcat b).rows = a.rows + b.rows := rfl

theorem Mat.cols_zeroLastCols (m : Mat) (k : Nat) : (m.zeroLastCols k).cols = m.cols := rfl

theorem Mat.rows_zeroLastCols (m : Mat) (k : Nat) : (m.zeroLastCols k).rows = m.rows := rfl

set_option maxHeartbeats 2000000 in
/-- Closed form for every entry of one unit's `create_mask` matrix, with the
unit parametrized by pad length `padL`, real length `tempL`, own image token
count `trueImg` and excess image columns `padImg` (so the collator's
`text_length = tempL + padL` and `img_length = trueImg + padImg`). -/
theorem create_mask_row_entry (padL tempL padImg trueImg r c : Nat)
    (hc : c < tempL + padL + (trueImg + padImg) + 1) :
    (create_mask_row (tempL + padL) (trueImg + padImg) tempL trueImg).entry r c =
      if tempL + padL + 1 + trueImg ≤ c then 0
      else if r < padL then 1
      else if c < padL then 0
      else if r < padL + tempL + 1 then (if c ≤ r then 1 else 0)
      else 1 := by
  have e1 : tempL + padL - tempL = padL := by omega
  have e2 : trueImg + padImg - trueImg = padImg := by omega
  unfold create_mask_row
  dsimp only
  rw [e1, e2]
  simp only [Mat.entry_zeroLastCols, Mat.entry_vcat, Mat.entry_hcat, Mat.entry_tril,
    Mat.entry_ones, Mat.entry_zeros, Mat.cols_ones, Mat.cols_zeros, Mat.rows_ones,
    Mat.cols_tril, Mat.cols_hcat, Mat.cols_vcat, Mat.rows_vcat, Mat.rows_hcat,
    Mat.rows_tril, apply_ite (fun m : Mat => m.entry r c),
    apply_ite (fun m : Mat => m.cols)]
  split_ifs <;> omega

/-- Dimensions of one unit's `create_mask` matrix. -/
theorem create_mask_row_dims (padL tempL padImg trueImg : Nat) :
    (create_mask_row (tempL + padL) (trueImg + padImg) tempL trueImg).rows
      = tempL + padL + (trueImg + padImg) + 1
    ∧ (create_mask_row (tempL + padL) (trueImg + padImg) tempL trueImg).cols
      = tempL + padL + (trueImg + padImg) + 1 := by
  have e1 : tempL + padL - tempL = padL := by omega
  have e2 : trueImg + padImg - trueImg = padImg := by omega
  unfold create_mask_row
  dsimp only
  rw [e1, e2]
  constructor <;>
    (split_ifs <;>
      simp only [Mat.rows_zeroLastCols, Mat.cols_zeroLastCols, Mat.rows_vcat,
        Mat.cols_vcat, Mat.rows_hcat, Mat.cols_hcat, Mat.rows_tril, Mat.cols_tril,
        Mat.rows_ones, Mat.cols_ones, Mat.rows_zeros, Mat.cols_zeros] <;> omega)

/-! ## Claims about the per-unit attention mask (C1, C10) -/

/-- C1 (counterexample): the claim says the assembled mask "has zero rows
and columns for the left-pad positions", but for the unit with
`max_len = 2`, `real_len = 1`, `img_length = 1 = ` own token count, the
single left-pad row (row 0) of the 4×4 mask is all ones, not zero. -/
theorem mask_pad_rows_not_zero :
    ¬ (∀ r < 2 - 1, ∀ c < 2 + 1 + 1, (create_mask_row 2 1 1 1).entry r c = 0) := by
  decide

/-- C1 (amended): every assembled unit's attention mask is square of side
`max_len + img_length + 1`, causal lower-triangular over the
`(real_len+1)` text+time block, fully dense over the output-image block up
to the unit's own output-image token count, has zero left-pad columns in
every non-pad row (the left-pad rows themselves are all ones), and has its
excess trailing image columns zeroed in every row when the unit's own
output-image token count is below `img_length`. -/
theorem mask_unit_structure (padL tempL padImg trueImg : Nat) :
    MaskUnitStructure padL tempL padImg trueImg := by
  refine ⟨create_mask_row_dims padL tempL padImg trueImg, ?_, ?_, ?_, ?_, ?_⟩
  · intro r _ c hc _ _ _ _
    rw [create_mask_row_entry padL tempL padImg trueImg r c hc]
    split_ifs <;> omega
  · intro r _ c hc _ _ _
    rw [create_mask_row_entry padL tempL padImg trueImg r c hc]
    split_ifs <;> omega
  · intro r _ c hc _
    have hc2 : c < tempL + padL + (trueImg + padImg) + 1 := by omega
    rw [create_mask_row_entry padL tempL padImg trueImg r c hc2]
    split_ifs <;> omega
  · intro r hr c hc
    have hc2 : c < tempL + padL + (trueImg + padImg) + 1 := by omega
    rw [create_mask_row_entry padL tempL padImg trueImg r c hc2]
    split_ifs <;> omega
  · intro r _ c hc hge
    rw [create_mask_row_entry padL tempL padImg trueImg r c hc, if_pos hge]

/-- C1 (witness): the amended mask structure at the concrete unit with one
pad position, two real tokens, own image token count 1 and one excess
image column. -/
theorem mask_unit_structure_witness : MaskUnitStructure 1 2 1 1 :=
  mask_unit_structure 1 2 1 1

/-- C10: in every assembled unit's mask, left-pad key columns are zero in
every non-pad row, while each left-pad query row is all ones except for
the excess trailing image columns (zeroed when the unit's own output-image
token count is below `img_length`). -/
theorem mask_pad_structure (padL tempL padImg trueImg : Nat) :
    MaskPadStructure padL tempL padImg trueImg := by
  constructor
  · intro r _ c hc _
    have hc2 : c < tempL + padL + (trueImg + padImg) + 1 := by omega
    rw [create_mask_row_entry padL tempL padImg trueImg r c hc2]
    split_ifs <;> omega
  · intro r hr c hc
    rw [create_mask_row_entry padL tempL padImg trueImg r c hc]
    split_ifs <;> omega

/-- C10 (witness): the pad-row/pad-column structure at the concrete unit
with one pad position, two real tokens, own image token count 1 and one
excess image column. -/
theorem mask_pad_structure_witness : MaskPadStructure 1 2 1 1 :=
  mask_pad_structure 1 2 1 1

/-! ## Claim about input-image visibility islands (C7) -/

theorem setBlockOne_preserves_one (m : Mat) (s e r c : Nat) (h : m.entry r c = 1) :
    (m.setBlockOne s e).entry r c = 1 := by
  rw [Mat.entry_setBlockOne]
  split_ifs <;> simp [h]

theorem adjust_attention_row_preserves_one (spans : List (Nat × Nat)) (m : Mat)
    (r c : Nat) (h : m.entry r c = 1) :
    (adjust_attention_row m spans).entry r c = 1 := by
  induction spans generalizing m with
  | nil => exact h
  | cons sp rest ih =>
      rw [adjust_attention_row, List.foldl_cons]
      exact ih _ (setBlockOne_preserves_one m sp.1 sp.2 r c h)

theorem adjust_attention_row_sets (spans : List (Nat × Nat)) (m : Mat)
    (sp : Nat × Nat) (hmem : sp ∈ spans) (r c : Nat)
    (h1 : sp.1 ≤ r) (h2 : r < sp.2) (h3 : sp.1 ≤ c) (h4 : c < sp.2) :
    (adjust_attention_row m spans).entry r c = 1 := by
  induction spans generalizing m with
  | nil => cases hmem
  | cons hd rest ih =>
      rw [adjust_attention_row, List.foldl_cons]
      rcases List.mem_cons.mp hmem with rfl | hmem2
      · apply adjust_attention_row_preserves_one
        rw [Mat.entry_setBlockOne, if_pos ⟨h1, h2, h3, h4⟩]
      · exact ih _ hmem2

theorem zipWith_getD {α β γ : Type} (f : α → β → γ) (as : List α) (bs : List β)
    (b : Nat) (ha : b < as.length) (hb : b < bs.length) (da : α) (db : β) (dc : γ) :
    (List.zipWith f as bs).getD b dc = f (as.getD b da) (bs.getD b db) := by
  rw [List.getD_eq_getElem?_getD, List.getElem?_zipWith,
    List.getElem?_eq_getElem ha, List.getElem?_eq_getElem hb]
  simp [List.getD_eq_getElem?_getD, List.getElem?_eq_getElem ha,
    List.getElem?_eq_getElem hb]

/-- C7: after `adjust_attention_for_input_images`, for every batch row and
every declared (pad-shifted) input-image span `(s, e)` of that row, the
mask submatrix over `[s, e) × [s, e)` is all ones. -/
theorem input_image_spans_visible (masks : List Mat)
    (imageSizes : List (List (Nat × Nat))) (b : Nat)
    (hb : b < masks.length) (hlen : masks.length = imageSizes.length)
    (sp : Nat × Nat) (hmem : sp ∈ imageSizes.getD b []) :
    ∀ r c : Nat, sp.1 ≤ r → r < sp.2 → sp.1 ≤ c → c < sp.2 →
      ((adjust_attention_for_input_images masks imageSizes).getD b default).entry r c
        = 1 := by
  intro r c h1 h2 h3 h4
  rw [adjust_attention_for_input_images,
    zipWith_getD adjust_attention_row masks imageSizes b hb (hlen ▸ hb) default [] default]
  exact adjust_attention_row_sets _ _ sp hmem r c h1 h2 h3 h4

/-- C7 (witness): the span `(1, 3)` of row 0 forces ones on its block: the
entry at `(1, 2)` of the adjusted mask is 1 even though it lies above the
diagonal of the causal mask `create_mask_row 3 0 3 0`. -/
theorem input_image_spans_visible_witness :
    ((adjust_attention_for_input_images [create_mask_row 3 0 3 0] [[(1, 3)]]).getD
        0 default).entry 1 2 = 1 :=
  input_image_spans_visible [create_mask_row 3 0 3 0] [[(1, 3)]] 0
    (by decide) (by decide) (1, 3) (by decide) 1 2
    (by decide) (by decide) (by decide) (by decide)

/-! ## Claim about the image-cfg fallback (C9) -/

/-- C9 (counterexample): the claim says that whenever `use_img_cfg` is
requested and a prompt has no input images, the image-cfg branch equals the
negative branch.  But when the `input_images` argument itself is `None`,
the processor forces `use_img_cfg` off and the image-cfg input stays
`None` — it does not equal the negative branch input. -/
theorem img_cfg_none_when_no_images :
    effective_use_img_cfg true (none : Option (List (List PImage))) = false
    ∧ compute_img_cfg_input
        (effective_use_img_cfg true (none : Option (List (List PImage)))) none
        (0 : Nat) 1
      = none
    ∧ (none : Option Nat) ≠ some 0 := by
  refine ⟨rfl, rfl, ?_⟩
  decide

/-- C9 (amended): with `use_img_cfg` requested and a non-null
`input_images` argument, a prompt with no input images (its per-prompt
image list null or empty) gets `neg_mllm_input` itself as its image-cfg
branch input; with a null `input_images` argument, `use_img_cfg` is forced
off and no image-cfg branch input is computed at all — in either case no
third distinct branch input exists for that prompt. -/
theorem img_cfg_fallback {α β : Type} (negInput imgInput : α)
    (inputImagesArg : Option β) (curImgs : Option (List PImage)) :
    ImgCfgFallbackProp negInput imgInput inputImagesArg curImgs := by
  constructor
  · intro hsome hcur
    rcases inputImagesArg with _ | arg
    · simp at hsome
    · rcases hcur with rfl | rfl <;> rfl
  · rfl

/-- C9 (witness): the amended fallback at concrete inputs: a present
`input_images` argument and a prompt with an empty image list yield the
negative input as image-cfg branch. -/
theorem img_cfg_fallback_witness :
    ImgCfgFallbackProp (0 : Nat) 1 (some [[(default : PImage)]]) (some []) :=
  img_cfg_fallback 0 1 (some [[(default : PImage)]]) (some [])

/-! ## Chunking lemmas for `torch.chunk` (C2, C3) -/

theorem torch_chunk_two {α : Type} (a b : List α) (hn : 0 < a.length)
    (hb : b.length = a.length) :
    torch_chunk (a ++ b) 2 = [a, b] := by
  have hd : ((a ++ b).length + 2 - 1) / 2 = a.length := by
    simp only [List.length_append, hb]
    omega
  unfold torch_chunk
  dsimp only
  rw [hd]
  have hr : List.range 2 = [0, 1] := rfl
  rw [hr, List.map_cons, List.map_cons, List.map_nil]
  rw [Nat.zero_mul, Nat.one_mul, List.drop_zero, List.take_left' rfl,
    List.drop_left' rfl, ← hb, List.take_length]
  have ha2 : a.isEmpty = false := by
    cases a
    · simp at hn
    · rfl
  have hb2 : b.isEmpty = false := by
    have : 0 < b.length := by omega
    cases b
    · simp at this
    · rfl
  simp [List.filter_cons, ha2, hb2]

theorem torch_chunk_three {α : Type} (a b c : List α) (hn : 0 < a.length)
    (hb : b.length = a.length) (hc : c.length = a.length) :
    torch_chunk (a ++ b ++ c) 3 = [a, b, c] := by
  have hd : ((a ++ b ++ c).length + 3 - 1) / 3 = a.length := by
    simp only [List.length_append, hb, hc]
    omega
  unfold torch_chunk
  dsimp only
  rw [hd]
  have hr : List.range 3 = [0, 1, 2] := rfl
  rw [hr, List.map_cons, List.map_cons, List.map_cons, List.map_nil]
  have e1 : ((a ++ b ++ c).drop (0 * a.length)).take a.length = a := by
    rw [Nat.zero_mul, List.drop_zero, List.append_assoc, List.take_left' rfl]
  have e2 : ((a ++ b ++ c).drop (1 * a.length)).take a.length = b := by
    rw [Nat.one_mul, List.append_assoc, List.drop_left' rfl, List.take_left' hb]
  have e3 : ((a ++ b ++ c).drop (2 * a.length)).take a.length = c := by
    have h2 : (a ++ b).length = 2 * a.length := by
      simp only [List.length_append, hb]
      omega
    rw [← h2, List.drop_left', ← hc, List.take_length]
    exact rfl
  rw [e1, e2, e3]
  have ha2 : a.isEmpty = false := by
    cases a
    · simp at hn
    · rfl
  have hb2 : b.isEmpty = false := by
    have : 0 < b.length := by omega
    cases b
    · simp at this
    · rfl
  have hc2 : c.isEmpty = false := by
    have : 0 < c.length := by omega
    cases c
    · simp at this
    · rfl
  simp [List.filter_cons, ha2, hb2, hc2]

theorem torch_chunk_headD {α : Type} (a rest : List α) (k : Nat) (hk : 0 < k)
    (hn : 0 < a.length) (hr : rest.length = (k - 1) * a.length) :
    (torch_chunk (a ++ rest) k).headD [] = a := by
  rcases k with _ | k2
  · omega
  have hlen : (a ++ rest).length = (k2 + 1) * a.length := by
    simp only [List.length_append, hr, Nat.add_sub_cancel]
    ring
  have hd : ((a ++ rest).length + (k2 + 1) - 1) / (k2 + 1) = a.length := by
    rw [hlen]
    have e : (k2 + 1) * a.length + (k2 + 1) - 1 = (k2 + 1) * a.length + k2 := by omega
    rw [e, Nat.mul_add_div (Nat.succ_pos k2), Nat.div_eq_of_lt (by omega), Nat.add_zero]
  unfold torch_chunk
  dsimp only
  rw [hd, List.range_succ_eq_map, List.map_cons]
  rw [Nat.zero_mul, List.drop_zero, List.take_left' rfl]
  have ha2 : a.isEmpty = false := by
    cases a
    · simp at hn
    · rfl
  rw [List.filter_cons]
  simp [ha2]

/-! ## Claim about CFG branch ordering (C2) -/

/-- C2: the combined collator concatenates the branch unit lists in the
order `positive ++ negative ++ image_cfg` when an image-conditioned branch
is present (`positive ++ negative` when absent), and chunking the
concatenated batch into `1 + num_cfg` equal groups recovers the branch
lists in that same order. -/
theorem cfg_branch_order (α γ : Type) [Inhabited α]
    (features : List (α × α × Option α × γ)) (hne : 0 < features.length) :
    CfgBranchOrderProp features := by
  constructor
  · rintro ⟨x, hx⟩
    have horder : (collator_branch_order features).1
        = features.map (fun f => f.1) ++ features.map (fun f => f.2.1)
            ++ (features.map (fun f => f.2.2.1)).map (fun o => o.getD default) := by
      unfold collator_branch_order
      dsimp only
      rw [hx]
    refine ⟨horder, ?_⟩
    rw [horder]
    exact torch_chunk_three _ _ _ (by simpa using hne) (by simp) (by simp)
  · intro hx
    have horder : (collator_branch_order features).1
        = features.map (fun f => f.1) ++ features.map (fun f => f.2.1) := by
      unfold collator_branch_order
      dsimp only
      rw [hx]
    refine ⟨horder, ?_⟩
    rw [horder]
    exact torch_chunk_two _ _ (by simpa using hne) (by simp)

/-- C2 (witness): the branch-order property at a singleton batch whose
image-cfg entry is present. -/
theorem cfg_branch_order_witness :
    0 < ([((1 : Nat), (2 : Nat), some (3 : Nat), (0 : Nat))]).length
    ∧ CfgBranchOrderProp [((1 : Nat), (2 : Nat), some (3 : Nat), (0 : Nat))] :=
  ⟨by decide, cfg_branch_order Nat Nat [(1, 2, some 3, 0)] (by decide)⟩

/-! ## Claim about the returned positive branch (C3) -/

/-- C3: the pipeline returns exactly the positive branch — the first of the
`1 + num_cfg` equal chunks of the sampler output — with every element
divided by the constant `0.13025`; the remaining branches are discarded. -/
theorem pipeline_returns_positive (positive rest : List ℚ) (numCfg : Nat)
    (hpos : 0 < positive.length) (hrest : rest.length = numCfg * positive.length) :
    pipeline_select_positive (positive ++ rest) numCfg
      = positive.map (fun x => x / (13025 / 100000 : ℚ)) := by
  unfold pipeline_select_positive
  dsimp only
  rw [torch_chunk_headD positive rest (1 + numCfg) (by omega) hpos (by simpa using hrest)]

/-- C3 (witness): a two-row sampler output with one CFG branch returns only
the first row, rescaled by `1 / 0.13025`. -/
theorem pipeline_returns_positive_witness :
    0 < ([(1 : ℚ)]).length ∧ ([(2 : ℚ)]).length = 1 * ([(1 : ℚ)]).length
    ∧ pipeline_select_positive ([(1 : ℚ)] ++ [(2 : ℚ)]) 1
      = ([(1 : ℚ)]).map (fun x => x / (13025 / 100000 : ℚ)) :=
  ⟨by decide, by decide, pipeline_returns_positive [1] [2] 1 (by decide) (by decide)⟩

/-! ## Reduction lemmas for `process_multi_modal_prompt` (C4, C5, C6) -/

theorem dropExtraBos_length (chunks : List (List Nat)) :
    (dropExtraBos chunks).length = chunks.length := by
  cases chunks with
  | nil => rfl
  | cons c rest => simp [dropExtraBos]

theorem process_multi_modal_prompt_ok (promptChunks : List (List Nat))
    (imageIds : List Nat) (inputImages : List PImage)
    (h1 : sortedUniqueIds imageIds = List.range' 1 (sortedUniqueIds imageIds).length)
    (h2 : (sortedUniqueIds imageIds).length = inputImages.length) :
    process_multi_modal_prompt promptChunks imageIds inputImages
      = Except.ok
          ⟨(interleaveChunks (dropExtraBos promptChunks)
              (imageIds.map (fun x => inputImages.getD (x - 1) default)) 0).1,
           imageIds.map (fun x => inputImages.getD (x - 1) default),
           (interleaveChunks (dropExtraBos promptChunks)
              (imageIds.map (fun x => inputImages.getD (x - 1) default)) 0).2⟩ := by
  unfold process_multi_modal_prompt
  dsimp only
  rw [if_neg (not_ne_iff.mpr h1), if_neg (not_ne_iff.mpr h2)]

theorem process_multi_modal_prompt_malformed (promptChunks : List (List Nat))
    (imageIds : List Nat) (inputImages : List PImage)
    (h : sortedUniqueIds imageIds ≠ List.range' 1 (sortedUniqueIds imageIds).length) :
    process_multi_modal_prompt promptChunks imageIds inputImages
      = Except.error ProcError.malformedPrompt := by
  unfold process_multi_modal_prompt
  dsimp only
  rw [if_pos h]

theorem process_multi_modal_prompt_mismatch (promptChunks : List (List Nat))
    (imageIds : List Nat) (inputImages : List PImage)
    (h1 : sortedUniqueIds imageIds = List.range' 1 (sortedUniqueIds imageIds).length)
    (h2 : (sortedUniqueIds imageIds).length ≠ inputImages.length) :
    process_multi_modal_prompt promptChunks imageIds inputImages
      = Except.error ProcError.imageCountMismatch := by
  unfold process_multi_modal_prompt
  dsimp only
  rw [if_neg (not_ne_iff.mpr h1), if_pos h2]

theorem interleaveChunks_spans_length (chunks : List (List Nat)) :
    ∀ (imgs : List PImage) (off : Nat),
      (interleaveChunks chunks imgs off).2.length
        = min (chunks.length - 1) imgs.length := by
  induction chunks with
  | nil =>
      intro imgs off
      simp [interleaveChunks]
  | cons c rest ih =>
      intro imgs off
      cases rest with
      | nil =>
          cases imgs with
          | nil => simp [interleaveChunks]
          | cons im imgs2 => simp [interleaveChunks]
      | cons r rs =>
          cases imgs with
          | nil => simp [interleaveChunks]
          | cons im imgs2 =>
              have h2 := ih imgs2 (off + c.length + imgPatchTokens im)
              simp only [interleaveChunks, List.length_cons]
              rw [h2]
              simp only [List.length_cons]
              omega

theorem interleaveChunks_spec (chunks : List (List Nat)) :
    ∀ (imgs : List PImage) (off : Nat), imgs.length + 1 = chunks.length →
      ∀ i, i < (interleaveChunks chunks imgs off).2.length →
        off ≤ ((interleaveChunks chunks imgs off).2.getD i (0, 0)).1
        ∧ ((interleaveChunks chunks imgs off).2.getD i (0, 0)).2
            = ((interleaveChunks chunks imgs off).2.getD i (0, 0)).1
              + imgPatchTokens (imgs.getD i default)
        ∧ ((interleaveChunks chunks imgs off).1.drop
              (((interleaveChunks chunks imgs off).2.getD i (0, 0)).1 - off)).take
              (imgPatchTokens (imgs.getD i default))
            = List.replicate (imgPatchTokens (imgs.getD i default)) 0 := by
  induction chunks with
  | nil =>
      intro imgs off h
      simp at h
  | cons c rest ih =>
      intro imgs off h i hi
      cases rest with
      | nil =>
          cases imgs with
          | nil => simp [interleaveChunks] at hi
          | cons im imgs2 => simp at h
      | cons r rs =>
          cases imgs with
          | nil => simp at h
          | cons im imgs2 =>
              have h3 : imgs2.length + 1 = (r :: rs).length := by
                simpa using h
              simp only [interleaveChunks, List.length_cons] at hi
              simp only [interleaveChunks]
              cases i with
              | zero =>
                  simp only [List.getD_cons_zero]
                  refine ⟨by omega, by simp, ?_⟩
                  have e : off + c.length - off = c.length := by omega
                  rw [e, List.drop_left' rfl,
                    List.take_left' (List.length_replicate _ _)]
              | succ j =>
                  have hj : j < (interleaveChunks (r :: rs) imgs2
                      (off + c.length + imgPatchTokens im)).2.length := by
                    omega
                  have hrec := ih imgs2 (off + c.length + imgPatchTokens im) h3 j hj
                  obtain ⟨hoff, hsnd, hslice⟩ := hrec
                  simp only [List.getD_cons_succ]
                  refine ⟨by omega, hsnd, ?_⟩
                  have e : ((interleaveChunks (r :: rs) imgs2
                        (off + c.length + imgPatchTokens im)).2.getD j (0, 0)).1 - off
                      = c.length + ((List.replicate (imgPatchTokens im) (0 : Nat)).length
                          + (((interleaveChunks (r :: rs) imgs2
                              (off + c.length + imgPatchTokens im)).2.getD j (0, 0)).1
                            - (off + c.length + imgPatchTokens im))) := by
                    rw [List.length_replicate]
                    omega
                  rw [e, List.drop_append, List.drop_append]
                  exact hslice

theorem getD_map_image (imageIds : List Nat) (inputImages : List PImage) (i : Nat)
    (hi : i < imageIds.length) :
    (imageIds.map (fun x => inputImages.getD (x - 1) default)).getD i default
      = inputImages.getD (imageIds.getD i 0 - 1) default := by
  rw [List.getD_eq_getElem?_getD, List.getElem?_map, List.getElem?_eq_getElem hi]
  rw [List.getD_eq_getElem?_getD (l := imageIds), List.getElem?_eq_getElem hi]
  rfl

/-! ## Claim about pixel-tensor ordering (C4) -/

/-- C4: for a prompt with valid placeholder indices drawn from `{1..K}`
(duplicates allowed) and `K` supplied images, the assembled `pixel_values`
list has one entry per placeholder occurrence, its `i`-th entry is the
image selected by the `i`-th placeholder in text order, and one span is
recorded per occurrence — so ordering follows placeholder appearance, not
image argument order, and duplicated indices duplicate their image. -/
theorem pixel_values_follow_placeholders (promptChunks : List (List Nat))
    (imageIds : List Nat) (inputImages : List PImage)
    (h1 : sortedUniqueIds imageIds = List.range' 1 (sortedUniqueIds imageIds).length)
    (h2 : (sortedUniqueIds imageIds).length = inputImages.length)
    (h3 : promptChunks.length = imageIds.length + 1) :
    PixelOrderProp promptChunks imageIds inputImages := by
  have hok := process_multi_modal_prompt_ok promptChunks imageIds inputImages h1 h2
  unfold PixelOrderProp
  rw [hok]
  refine ⟨rfl, ?_, ?_, ?_⟩
  · simp [mmPixelValues]
  · intro i hi
    simp only [mmPixelValues]
    exact getD_map_image imageIds inputImages i hi
  · simp only [mmImageSizes]
    rw [interleaveChunks_spans_length]
    rw [dropExtraBos_length, h3]
    simp

/-- C4 (witness): prompt text referencing image 2 before image 1, with two
supplied images — the property holds with the proper hypotheses
discharged. -/
theorem pixel_values_follow_placeholders_witness :
    sortedUniqueIds [2, 1] = List.range' 1 (sortedUniqueIds [2, 1]).length
    ∧ (sortedUniqueIds [2, 1]).length = ([⟨16, 16, 10⟩, ⟨16, 16, 20⟩] : List PImage).length
    ∧ ([[5], [6], [7]] : List (List Nat)).length = ([2, 1] : List Nat).length + 1
    ∧ PixelOrderProp [[5], [6], [7]] [2, 1] [⟨16, 16, 10⟩, ⟨16, 16, 20⟩] :=
  ⟨by decide, by decide, by decide,
   pixel_values_follow_placeholders [[5], [6], [7]] [2, 1] [⟨16, 16, 10⟩, ⟨16, 16, 20⟩]
     (by decide) (by decide) (by decide)⟩

/-! ## Claim about validation errors (C5) -/

/-- C5: for a prompt carrying input images, tokenization fails with
`malformedPrompt` when the distinct placeholder indices are not exactly
`{1..K}`, and with `imageCountMismatch` when `K` differs from the number of
supplied images; the result is a bare error value produced before any
interleaving, padding, mask or position-id work. -/
theorem validation_fails_fast (promptChunks : List (List Nat)) (imageIds : List Nat)
    (inputImages : List PImage) (_himg : 0 < inputImages.length) :
    ValidationBehaviour promptChunks imageIds inputImages := by
  constructor
  · intro h
    exact process_multi_modal_prompt_malformed promptChunks imageIds inputImages h
  · intro h1 h2
    exact process_multi_modal_prompt_mismatch promptChunks imageIds inputImages h1 h2

/-- C5 (witness): a prompt whose only placeholder index is 2 (not starting
at 1), with one supplied image. -/
theorem validation_fails_fast_witness :
    0 < ([⟨16, 16, 0⟩] : List PImage).length
    ∧ ValidationBehaviour [[5], [6]] [2] [⟨16, 16, 0⟩] :=
  ⟨by decide, validation_fails_fast [[5], [6]] [2] [⟨16, 16, 0⟩] (by decide)⟩

/-! ## Claim about span sizes (C6) -/

/-- C6 (counterexample): the claim says the inserted run has size
`floor(H/16) * floor(W/16)`; for an 8×32 image the code inserts
`8*32 // 16 // 16 = 1` placeholder token and records the span `(1, 2)` of
length 1, while `floor(8/16) * floor(32/16) = 0`. -/
theorem span_size_not_per_axis :
    mmImageSizes (process_multi_modal_prompt [[9], [7]] [1] [⟨8, 32, 0⟩]) = [(1, 2)]
    ∧ (2 : Nat) - 1 ≠ 8 / 16 * (32 / 16) := by
  exact ⟨by decide, by decide⟩

/-- C6 (amended): for every image interleaved between text chunks, the
inserted run of zero-valued placeholder tokens has size
`floor(H*W/256)` (which equals `floor(H/16) * floor(W/16)` whenever both
dimensions are multiples of 16), the recorded span is
`(offset_before, offset_before + size)`, and the span length
`end - start` equals `floor(H*W/256)`. -/
theorem span_sizes (promptChunks : List (List Nat)) (imageIds : List Nat)
    (inputImages : List PImage)
    (h1 : sortedUniqueIds imageIds = List.range' 1 (sortedUniqueIds imageIds).length)
    (h2 : (sortedUniqueIds imageIds).length = inputImages.length)
    (h3 : promptChunks.length = imageIds.length + 1) :
    SpanSizesProp promptChunks imageIds inputImages := by
  have hok := process_multi_modal_prompt_ok promptChunks imageIds inputImages h1 h2
  unfold SpanSizesProp
  rw [hok]
  simp only [mmImageSizes, mmPixelValues, mmInputIds]
  intro i hi
  have hlen : (imageIds.map (fun x => inputImages.getD (x - 1) default)).length + 1
      = (dropExtraBos promptChunks).length := by
    rw [List.length_map, dropExtraBos_length, h3]
  have hspec := interleaveChunks_spec (dropExtraBos promptChunks)
      (imageIds.map (fun x => inputImages.getD (x - 1) default)) 0 hlen i hi
  obtain ⟨hoff, hsnd, hslice⟩ := hspec
  refine ⟨hsnd, ?_, ?_⟩
  · rw [hsnd, Nat.add_sub_cancel_left, imgPatchTokens, Nat.div_div_eq_div_mul]
  · simpa using hslice

/-- C6 (witness): one 16×16 image spliced between two chunks — the span
contract holds with the hypotheses discharged. -/
theorem span_sizes_witness :
    sortedUniqueIds [1] = List.range' 1 (sortedUniqueIds [1]).length
    ∧ (sortedUniqueIds [1]).length = ([⟨16, 16, 0⟩] : List PImage).length
    ∧ ([[9], [7]] : List (List Nat)).length = ([1] : List Nat).length + 1
    ∧ SpanSizesProp [[9], [7]] [1] [⟨16, 16, 0⟩] :=
  ⟨by decide, by decide, by decide,
   span_sizes [[9], [7]] [1] [⟨16, 16, 0⟩] (by decide) (by decide) (by decide)⟩

/-! ## Claim about position ids (C8) -/

theorem create_position_getD (attMask : List (List Nat)) (numTokens : List Nat)
    (b : Nat) (hb : b < attMask.length) :
    (create_position attMask numTokens).getD b []
      = List.replicate ((attMask.headD []).length - (attMask.getD b []).sum) 0
          ++ List.range ((attMask.getD b []).sum + numTokens.foldr max 0 + 1) := by
  unfold create_position
  dsimp only
  rw [List.getD_eq_getElem?_getD, List.getElem?_map, List.getElem?_eq_getElem hb]
  rw [List.getD_eq_getElem?_getD (l := attMask), List.getElem?_eq_getElem hb]
  rfl

/-- C8: for every unit in a batch, the position-id row is
`[0]*pad_count` followed by `0, 1, ..., real_len + img_length`: it has
length `max_len + img_length + 1`, is zero on the pad prefix, and the real
positions count from 0 immediately after the pad prefix, regardless of
absolute sequence length or batch composition. -/
theorem position_ids_structure (attMask : List (List Nat)) (numTokens : List Nat)
    (b : Nat) (hb : b < attMask.length)
    (hsum : (attMask.getD b []).sum ≤ (attMask.headD []).length) :
    PositionIdsProp attMask numTokens b := by
  unfold PositionIdsProp
  rw [create_position_getD attMask numTokens b hb]
  refine ⟨?_, ?_, ?_⟩
  · simp only [List.length_append, List.length_replicate, List.length_range]
    omega
  · intro i hi
    rw [List.getD_eq_getElem?_getD, List.getElem?_append,
      if_pos (by simpa using hi), List.getElem?_replicate,
      if_pos (by simpa using hi)]
    rfl
  · intro j hj
    rw [List.getD_eq_getElem?_getD,
      List.getElem?_append_right (by simp)]
    simp only [List.length_replicate, Nat.add_sub_cancel_left]
    rw [List.getElem?_range hj]
    rfl

/-- C8 (witness): a batch row `[0, 1, 1]` (one pad slot, two real tokens)
with `img_length = 4`. -/
theorem position_ids_structure_witness :
    0 < ([[0, 1, 1]] : List (List Nat)).length
    ∧ (([[0, 1, 1]] : List (List Nat)).getD 0 []).sum
        ≤ (([[0, 1, 1]] : List (List Nat)).headD []).length
    ∧ PositionIdsProp [[0, 1, 1]] [4] 0 :=
  ⟨by decide, by decide, position_ids_structure [[0, 1, 1]] [4] 0 (by decide) (by decide)⟩
